import Mathlib

/-!
Verification of the pcap directory-watcher (src/shared/bin/pcap_watcher.py)
against its natural-language specification.

The embedding below translates the parts of the program the claims are about:
the per-event processing pipeline installed on the EventWatcher class
(size/type filtering, duplicate lookup against the "arkime_files" index,
record publication), the EventWatcher startup connection and health-check
retry loops, the main-program warm-up and polling loops, and the
pre-existing-file replay pass.  External collaborators (the magic classifier,
the OpenSearch backend, the tag deriver) are modelled as parameters.
-/

namespace PcapWatcher

/-- Constant ARKIME_FILES_INDEX from the source (line 52). -/
def ARKIME_FILES_INDEX : String := "arkime_files"

/-- Constant ARKIME_FILE_SIZE_FIELD from the source (line 53). -/
def ARKIME_FILE_SIZE_FIELD : String := "filesize"

/-- The path separator, os.path.sep on the POSIX deployment the program targets. -/
def pathSep : String := "/"

/-- The textual indicator of the next-generation capture format tested on
line 206 of the source ("pcap-ng" in fileType). -/
def pcapNgIndicator : String := "pcap-ng"

/-- Boolean prefix test on character lists (Python str.startswith on the
character level). -/
def listIsPrefix : List Char → List Char → Bool
  | [], _ => true
  | _ :: _, [] => false
  | a :: as, b :: bs => a == b && listIsPrefix as bs

/-- Boolean contiguous-sublist test: does the needle occur somewhere in the
haystack (Python "needle in haystack" on strings)? -/
def listContainsSub (needle : List Char) : List Char → Bool
  | [] => listIsPrefix needle []
  | b :: bs => listIsPrefix needle (b :: bs) || listContainsSub needle bs

/-- Python text.startswith(pfx). -/
def strPrefixOf (pfx text : String) : Bool :=
  listIsPrefix pfx.data text.data

/-- Python text.endswith(sfx). -/
def strEndsWith (text sfx : String) : Bool :=
  listIsPrefix sfx.data.reverse text.data.reverse

/-- Python text[n:]. -/
def strDrop (text : String) (n : Nat) : String :=
  String.mk (text.data.drop n)

/-- Python "needle in haystack" for strings. -/
def strContains (haystack needle : String) : Bool :=
  listContainsSub needle.data haystack.data

/-- Models os.path.join(p, "") on POSIX as called on line 208 of the source:
appends the path separator unless p is empty or already ends with it. -/
def joinTrailingSep (p : String) : String :=
  if p = "" then "" else if strEndsWith p pathSep then p else p ++ pathSep

/-- Modelled from the spec: the remove_prefix helper imported from the
external malcolm_utils module, which is not under src.  Per the spec it
strips the given prefix from the text as a literal textual prefix and
returns the text unchanged when the prefix does not match. -/
def remove_prefix (text pfx : String) : String :=
  if strPrefixOf pfx text then strDrop text pfx.length else text

/-- The relative path computed on line 208 of the source: the
 remove_prefix helper applied to event.pathname and
os.path.join(args.baseDir, ""). -/
def relativePathOf (pathname baseDir : String) : String :=
  remove_prefix pathname (joinTrailingSep baseDir)

/-- The configuration fields of args consumed by the event pipeline. -/
structure Config where
  minBytes : Int
  maxBytes : Int
  baseDir : String
  nodeName : String
  includeAbsolutePath : Bool
deriving DecidableEq

/-- One filesystem event as seen by the handler installed by
event_process_generator, together with the classifier outputs for its target
(event.dir, os.path.isfile, magic.from_file twice, os.path.getsize). -/
structure FSEvent where
  pathname : String
  dir : Bool
  isFile : Bool
  mime : String
  fileType : String
  size : Int
deriving DecidableEq

/-- The record published for an accepted file (the fileInfo dict built on
lines 235-242 of the source): exactly these six fields. -/
structure FileRecord where
  name : String
  size : Int
  mime : String
  fileType : String
  node : String
  tags : List String
deriving DecidableEq

/-- One hit of the OpenSearch response, restricted to what the loop on
lines 219-223 inspects: hit.to_dict() as a field-name/value association
(only the numeric size field is ever read). -/
abbrev Hit := List (String × Int)

/-- The duplicate query built on lines 213-217: a term filter on the node
field and a wildcard query on the name field, against the arkime_files
index. -/
structure OSQuery where
  index : String
  nodeTerm : String
  nameWildcard : String
deriving DecidableEq

/-- The query issued for a candidate file: scoped to the configured node
name, wildcard pattern "*" ++ os.path.sep ++ relativePath. -/
def duplicateQuery (nodeName relativePath : String) : OSQuery :=
  { index := ARKIME_FILES_INDEX
    nodeTerm := nodeName
    nameWildcard := "*" ++ pathSep ++ relativePath }

/-- The scan over the first page of hits (lines 219-223): a candidate is a
duplicate iff some hit has the size field present and equal to the
candidate's size (the for-loop with break is List.any). -/
def scanForDuplicate (hits : List Hit) (fileSize : Int) : Bool :=
  hits.any fun hit =>
    match hit.lookup ARKIME_FILE_SIZE_FIELD with
    | some v => v == fileSize
    | none => false

/-- The duplicate check of lines 211-223: when useOpenSearch is set, issue
the query (which may raise, modelled by Except) and scan the response;
otherwise fileIsDuplicate stays False. -/
def dupCheck (useOpenSearch : Bool) (backend : OSQuery → Except String (List Hit))
    (nodeName relativePath : String) (fileSize : Int) : Except String Bool :=
  if useOpenSearch then
    (backend (duplicateQuery nodeName relativePath)).map fun hits =>
      scanForDuplicate hits fileSize
  else Except.ok false

/-- The fileInfo dict built on lines 235-242. -/
def mkFileRecord (cfg : Config) (tags_from_filename : String → List String)
    (ev : FSEvent) (relativePath : String) : FileRecord :=
  { name := if cfg.includeAbsolutePath then ev.pathname else relativePath
    size := ev.size
    mime := ev.mime
    fileType := ev.fileType
    node := cfg.nodeName
    tags := tags_from_filename relativePath }

/-- The terminal outcome of processing one filesystem event.  skippedNonfile
is the silent fall-through when the target is a directory or no longer a
regular file; errored e means an exception escaped the handler (nothing in
the handler catches a backend error raised by the duplicate query). -/
inductive Outcome where
  | skippedNonfile
  | rejected
  | duplicate
  | errored (e : String)
  | published (r : FileRecord)
deriving DecidableEq

/-- The records handed to the publisher by one event: one for a published
outcome, none otherwise. -/
def publishedRecords : Outcome → List FileRecord
  | Outcome.published r => [r]
  | _ => []

/-- True when the event got past the size/type filter, i.e. proceeded to the
duplicate check and possible publication. -/
def proceedsPastFilter : Outcome → Bool
  | Outcome.skippedNonfile => false
  | Outcome.rejected => false
  | _ => true

/-- The event handler _method_name installed by event_process_generator
(lines 189-253 of the source).  pcapMimeTypes and tags_from_filename come
from the external pcap_utils module and are parameters; backend models the
OpenSearch round trip of the duplicate query, Except.error being a raised
exception. -/
def processEvent (cfg : Config) (pcapMimeTypes : List String)
    (tags_from_filename : String → List String) (useOpenSearch : Bool)
    (backend : OSQuery → Except String (List Hit)) (ev : FSEvent) : Outcome :=
  if !ev.dir && ev.isFile then
    if (cfg.minBytes ≤ ev.size ∧ ev.size ≤ cfg.maxBytes) ∧
        (ev.mime ∈ pcapMimeTypes ∨ strContains ev.fileType pcapNgIndicator = true) then
      let relativePath := relativePathOf ev.pathname cfg.baseDir
      match dupCheck useOpenSearch backend cfg.nodeName relativePath ev.size with
      | Except.error e => Outcome.errored e
      | Except.ok true => Outcome.duplicate
      | Except.ok false =>
          Outcome.published (mkFileRecord cfg tags_from_filename ev relativePath)
    else Outcome.rejected
  else Outcome.skippedNonfile

/-!
Startup loops.  All four blocking loops of the program are embedded as
fuel-indexed functions over an abstract fine-grained clock: iteration n
checks its guard (which reads the shuttingDown flag) at clock tick 2*n and
performs its sleep, if any, at tick 2*n+1; the shut function gives the value
of the process-wide shuttingDown flag at each tick.  Besides their result,
the loop functions return the list of ticks at which a time.sleep call
happened within the supplied fuel (fuel exhaustion truncates the trace, so
every theorem about the traces quantifies over fuel and therefore covers
every finite prefix of the real, possibly unbounded, execution).
-/

/-- The OpenSearch connect loop of EventWatcher.init, lines 91-139 of the
source.  att n tells whether the n-th connection attempt succeeds (False
models any raised exception, all of which the loop swallows).  Per
iteration: if shuttingDown, the while guard stops the loop; otherwise one
attempt is made.  On success, connected becomes True and the trailing
else-branch sleeps one unit when opensearchWaitForHealth is set, then
breaks.  On failure with opensearchWaitForHealth set, the loop sleeps one
unit and retries; on failure without it, the trailing else-branch breaks at
once.  Result: none when fuel ran out, otherwise some (connected, next
iteration index). -/
def connectLoop (wfh : Bool) (shut : Nat → Bool) (att : Nat → Bool) :
    Nat → Nat → Option (Bool × Nat) × List Nat
  | 0, _ => (none, [])
  | fuel + 1, n =>
    if shut (2 * n) then (some (false, n), [])
    else if att n then (some (true, n + 1), if wfh then [2 * n + 1] else [])
    else if wfh then
      let p := connectLoop wfh shut att fuel (n + 1)
      (p.1, (2 * n + 1) :: p.2)
    else (some (false, n + 1), [])

/-- The cluster-health wait loop of EventWatcher.init, lines 142-164.  The
while guard is connected and opensearchWaitForHealth and (not healthy) and
(not shuttingDown); hAtt n tells whether the n-th health call succeeds (a
swallowed connection exception otherwise).  A successful call sets healthy
and skips the sleep; a failed one sleeps one unit and retries.  Result:
none when fuel ran out, otherwise some healthy. -/
def healthLoop (connected wfh : Bool) (shut : Nat → Bool) (hAtt : Nat → Bool) :
    Nat → Nat → Option Bool × List Nat
  | 0, _ => (none, [])
  | fuel + 1, n =>
    if connected && wfh && !shut (2 * n) then
      if hAtt n then (some true, [])
      else
        let p := healthLoop connected wfh shut hAtt fuel (n + 1)
        (p.1, (2 * n + 1) :: p.2)
    else (some false, [])

/-- The OpenSearch part of EventWatcher.init when an endpoint is configured
(lines 86-166): run the connect loop from iteration 0, then the health loop,
and report (connected, healthy). -/
def watcherInitOS (wfh : Bool) (shut : Nat → Bool) (att hAtt : Nat → Bool)
    (fuel : Nat) : Option (Bool × Bool) :=
  match (connectLoop wfh shut att fuel 0).1 with
  | none => none
  | some (connected, m) =>
    match (healthLoop connected wfh shut hAtt fuel m).1 with
    | none => none
    | some healthy => some (connected, healthy)

/-- The useOpenSearch flag as EventWatcher.init leaves it: False when no
endpoint is configured (line 82, the connection block being skipped),
otherwise connected and healthy (line 166). -/
def useOpenSearchInit (url : Option String) (wfh : Bool) (shut : Nat → Bool)
    (att hAtt : Nat → Bool) (fuel : Nat) : Option Bool :=
  match url with
  | none => some false
  | some _ =>
    (watcherInitOS wfh shut att hAtt fuel).map fun p => p.1 && p.2

/-- The warm-up sleep loop of main, lines 476-479: sleepCount starts at 0
and the loop sleeps one unit per iteration while (not shuttingDown) and
(sleepCount < args.startSleepSec). -/
def warmupLoop (shut : Nat → Bool) (startSleepSec : Int) : Nat → Nat → List Nat
  | 0, _ => []
  | fuel + 1, n =>
    if !shut (2 * n) && decide ((n : Int) < startSleepSec) then
      (2 * n + 1) :: warmupLoop shut startSleepSec fuel (n + 1)
    else []

/-- The main polling loop, lines 528-532: while (not shuttingDown), service
the pdb flag and sleep 0.2 seconds. -/
def mainLoop (shut : Nat → Bool) : Nat → Nat → List Nat
  | 0, _ => []
  | fuel + 1, n =>
    if !shut (2 * n) then (2 * n + 1) :: mainLoop shut fuel (n + 1)
    else []

/-- Number of sleeps of a trace performed while the shuttingDown flag was
already set. -/
def lateSleepCount (shut : Nat → Bool) (ss : List Nat) : Nat :=
  (ss.filter fun t => shut t).length

/-- The pre-existing-file replay pass of main, lines 517-525: when the base
directory existed at startup (preexistingDir, line 487) and ignoreExisting
and shuttingDown are unset, touch every regular file of every resolved
watch target (watchDirFiles lists, per watch target, the regular files
found by the iterdir scan); the returned list is the files touched, in
order.  The touch helper itself comes from the external malcolm_utils
module; per the spec it forces a synthetic "modified" notification for the
file. -/
def touchExistingFiles (preexistingDir ignoreExisting shuttingDown : Bool)
    (watchDirFiles : List (List String)) : List String :=
  if preexistingDir && !ignoreExisting && !shuttingDown then
    watchDirFiles.flatten
  else []

/-! Concrete helper inputs used by witness and counterexample theorems. -/

/-- A shuttingDown signal that is never set. -/
def shutNever : Nat → Bool := fun _ => false

/-- A shuttingDown signal set from tick T on (a monotone flag, as the
shutdown handler only ever sets the global and never clears it). -/
def shutAt (T : Nat) : Nat → Bool := fun t => decide (T ≤ t)

/-- An attempt stream in which every attempt succeeds. -/
def attAlwaysTrue : Nat → Bool := fun _ => true

/-- An attempt stream in which every attempt fails (raises a swallowed
connection exception). -/
def attNever : Nat → Bool := fun _ => false

/-- A sample configuration used by witnesses and counterexamples. -/
def cfgW : Config :=
  { minBytes := 24, maxBytes := 1000, baseDir := "/pcap", nodeName := "malcolm",
    includeAbsolutePath := false }

/-- A sample accepted-capture-format set (PCAP_MIME_TYPES is external). -/
def mimesW : List String := ["application/vnd.tcpdump.pcap"]

/-- A sample tag deriver (tags_from_filename is external). -/
def tagsW : String → List String := fun p => [p]

/-- A sample event for a regular 500-byte capture file. -/
def evW : FSEvent :=
  { pathname := "/pcap/trace.pcap", dir := false, isFile := true,
    mime := "application/vnd.tcpdump.pcap", fileType := "tcpdump capture file", size := 500 }

/-- A backend on which every query raises an unexpected error. -/
def backendErr : OSQuery → Except String (List Hit) := fun _ => Except.error "ConnectionTimeout"

/-- A backend whose first result page holds a hit of size 500 and a hit of
size 999 (a same-named file of a different size). -/
def backendHit : OSQuery → Except String (List Hit) := fun _ =>
  Except.ok [[(ARKIME_FILE_SIZE_FIELD, 500)], [(ARKIME_FILE_SIZE_FIELD, 999)]]

/-- A backend whose first result page holds only a hit of size 999. -/
def backendOther : OSQuery → Except String (List Hit) := fun _ =>
  Except.ok [[(ARKIME_FILE_SIZE_FIELD, 999)]]

/-- A backend whose result pages are empty. -/
def backendNone : OSQuery → Except String (List Hit) := fun _ => Except.ok []

end PcapWatcher

namespace PcapWatcher

example :
    processEvent
      { minBytes := 24, maxBytes := 1000, baseDir := "/pcap", nodeName := "malcolm",
        includeAbsolutePath := false }
      ["application/vnd.tcpdump.pcap"] (fun _ => []) false (fun _ => Except.ok [])
      { pathname := "/pcap/a.pcap", dir := false, isFile := true,
        mime := "application/vnd.tcpdump.pcap", fileType := "tcpdump capture file", size := 500 }
    = Outcome.published
        { name := "a.pcap", size := 500, mime := "application/vnd.tcpdump.pcap",
          fileType := "tcpdump capture file", node := "malcolm", tags := [] } := by
  decide

example :
    processEvent
      { minBytes := 24, maxBytes := 1000, baseDir := "/pcap", nodeName := "malcolm",
        includeAbsolutePath := false }
      ["application/vnd.tcpdump.pcap"] (fun _ => []) false (fun _ => Except.ok [])
      { pathname := "/pcap/a.pcap", dir := false, isFile := true,
        mime := "application/vnd.tcpdump.pcap", fileType := "tcpdump capture file", size := 10 }
    = Outcome.rejected := by
  decide

example : strContains "pcapng capture file - version 1.0, pcap-ng thing" "pcap-ng" = true := by decide
example : strContains "tcpdump capture file" "pcap-ng" = false := by decide
example : relativePathOf "/pcap/sub/a.pcap" "/pcap" = "sub/a.pcap" := by decide
example : relativePathOf "/data/pcap/a.pcap" "pcap" = "/data/pcap/a.pcap" := by decide

-- connect loop: without wait-for-health, one failed attempt ends the loop
example : connectLoop false shutNever attNever 5 0 = (some (false, 1), []) := by decide
-- connect loop: with wait-for-health, failures retry (and sleep) until success
example :
    connectLoop true shutNever (fun n => decide (2 ≤ n)) 9 0 = (some (true, 3), [1, 3, 5]) := by
  decide
-- connect loop: shutdown stops the retrying
example : connectLoop true (shutAt 3) attNever 9 0 = (some (false, 2), [1, 3]) := by decide
-- health loop: guard immediately false when wait-for-health unset
example : healthLoop true false shutNever attAlwaysTrue 5 0 = (some false, []) := by decide
-- init: endpoint configured, no wait-for-health, first attempt succeeds:
-- connected but not healthy, so useOpenSearch ends up false
example : watcherInitOS false shutNever attAlwaysTrue attAlwaysTrue 4 = some (true, false) := by
  decide
example :
    useOpenSearchInit (some "http://opensearch:9200") false shutNever attAlwaysTrue attAlwaysTrue 4
      = some false := by decide
example :
    useOpenSearchInit (some "http://opensearch:9200") true shutNever attAlwaysTrue attAlwaysTrue 4
      = some true := by decide
example : warmupLoop shutNever 3 10 0 = [1, 3, 5] := by decide
example : mainLoop (shutAt 4) 10 0 = [1, 3] := by decide
example : touchExistingFiles true false false [["a"], ["b", "c"]] = ["a", "b", "c"] := by decide
example : touchExistingFiles false false false [["a"]] = [] := by decide

/-! Helper lemmas. -/

/-- The Boolean character-list prefix test agrees with existence of a
completing suffix. -/
theorem listIsPrefix_iff (a b : List Char) : listIsPrefix a b = true ↔ ∃ t, a ++ t = b := by
  induction a generalizing b with
  | nil => simp [listIsPrefix]
  | cons x xs ih =>
    cases b with
    | nil => simp [listIsPrefix]
    | cons y ys =>
      simp only [listIsPrefix, Bool.and_eq_true, beq_iff_eq, ih, List.cons_append,
        List.cons.injEq]
      constructor
      · rintro ⟨rfl, t, rfl⟩
        exact ⟨t, rfl, rfl⟩
      · rintro ⟨t, rfl, rfl⟩
        exact ⟨rfl, t, rfl⟩

/-- Appending packed character lists appends the strings. -/
theorem strMk_append (a b : List Char) : String.mk a ++ String.mk b = String.mk (a ++ b) := rfl

/-- Unfolding lemma for lateSleepCount on a cons cell. -/
theorem lateSleepCount_cons (shut : Nat → Bool) (t : Nat) (ss : List Nat) :
    lateSleepCount shut (t :: ss)
      = (if shut t then 1 else 0) + lateSleepCount shut ss := by
  by_cases h : shut t = true
  · simp [lateSleepCount, List.filter, h, Nat.add_comm]
  · simp [lateSleepCount, List.filter, h]

/-- A monotone shutdown flag that is set at a sleep tick of iteration n is
still set at the guard tick of iteration n+1. -/
theorem shut_step {shut : Nat → Bool}
    (hmono : ∀ i j, i ≤ j → shut i = true → shut j = true) {n : Nat}
    (h : shut (2 * n + 1) = true) : shut (2 * (n + 1)) = true :=
  hmono (2 * n + 1) (2 * (n + 1)) (by omega) h

/-- Once the shutdown flag is set at the guard tick, the connect loop sleeps
no more. -/
theorem connectLoop_trace_shut (wfh : Bool) (shut : Nat → Bool) (att : Nat → Bool)
    (fuel n : Nat) (h : shut (2 * n) = true) :
    (connectLoop wfh shut att fuel n).2 = [] := by
  cases fuel with
  | zero => rfl
  | succ f => simp [connectLoop, h]

/-- Once the shutdown flag is set at the guard tick, the health loop sleeps
no more. -/
theorem healthLoop_trace_shut (connected wfh : Bool) (shut : Nat → Bool)
    (hAtt : Nat → Bool) (fuel n : Nat) (h : shut (2 * n) = true) :
    (healthLoop connected wfh shut hAtt fuel n).2 = [] := by
  cases fuel with
  | zero => rfl
  | succ f => simp [healthLoop, h]

/-- Once the shutdown flag is set at the guard tick, the warm-up loop sleeps
no more. -/
theorem warmupLoop_trace_shut (shut : Nat → Bool) (s : Int) (fuel n : Nat)
    (h : shut (2 * n) = true) : warmupLoop shut s fuel n = [] := by
  cases fuel with
  | zero => rfl
  | succ f => simp [warmupLoop, h]

/-- Once the shutdown flag is set at the guard tick, the main loop sleeps no
more. -/
theorem mainLoop_trace_shut (shut : Nat → Bool) (fuel n : Nat)
    (h : shut (2 * n) = true) : mainLoop shut fuel n = [] := by
  cases fuel with
  | zero => rfl
  | succ f => simp [mainLoop, h]

/-- At most one sleep of the connect loop happens after the monotone
shutdown flag has been set. -/
theorem connectLoop_lateSleeps (shut : Nat → Bool)
    (hmono : ∀ i j, i ≤ j → shut i = true → shut j = true)
    (wfh : Bool) (att : Nat → Bool) (fuel n : Nat) :
    lateSleepCount shut (connectLoop wfh shut att fuel n).2 ≤ 1 := by
  induction fuel generalizing n with
  | zero => simp [connectLoop, lateSleepCount]
  | succ f ih =>
    by_cases hs : shut (2 * n) = true
    · simp [connectLoop, hs, lateSleepCount]
    · by_cases ha : att n = true
      · cases wfh with
        | false => simp [connectLoop, hs, ha, lateSleepCount]
        | true =>
          simp only [connectLoop, hs, ha, if_true, if_false, Bool.false_eq_true]
          by_cases hl : shut (2 * n + 1) = true <;>
            simp [lateSleepCount, List.filter, hl]
      · cases wfh with
        | false => simp [connectLoop, hs, ha, lateSleepCount]
        | true =>
          have htrace :
              (connectLoop true shut att (f + 1) n).2
                = (2 * n + 1) :: (connectLoop true shut att f (n + 1)).2 := by
            simp [connectLoop, hs, ha]
          rw [htrace, lateSleepCount_cons]
          by_cases hl : shut (2 * n + 1) = true
          · rw [connectLoop_trace_shut true shut att f (n + 1) (shut_step hmono hl)]
            simp [hl, lateSleepCount]
          · simp only [hl, if_false]
            simpa using ih (n + 1)

/-- At most one sleep of the health loop happens after the monotone shutdown
flag has been set. -/
theorem healthLoop_lateSleeps (shut : Nat → Bool)
    (hmono : ∀ i j, i ≤ j → shut i = true → shut j = true)
    (connected wfh : Bool) (hAtt : Nat → Bool) (fuel n : Nat) :
    lateSleepCount shut (healthLoop connected wfh shut hAtt fuel n).2 ≤ 1 := by
  induction fuel generalizing n with
  | zero => simp [healthLoop, lateSleepCount]
  | succ f ih =>
    by_cases hg : (connected && wfh && !shut (2 * n)) = true
    · by_cases ha : hAtt n = true
      · simp [healthLoop, hg, ha, lateSleepCount]
      · have htrace :
            (healthLoop connected wfh shut hAtt (f + 1) n).2
              = (2 * n + 1) :: (healthLoop connected wfh shut hAtt f (n + 1)).2 := by
          simp [healthLoop, hg, ha]
        rw [htrace, lateSleepCount_cons]
        by_cases hl : shut (2 * n + 1) = true
        · rw [healthLoop_trace_shut connected wfh shut hAtt f (n + 1) (shut_step hmono hl)]
          simp [hl, lateSleepCount]
        · simp only [hl, if_false]
          simpa using ih (n + 1)
    · simp [healthLoop, hg, lateSleepCount]

/-- At most one sleep of the warm-up loop happens after the monotone
shutdown flag has been set. -/
theorem warmupLoop_lateSleeps (shut : Nat → Bool)
    (hmono : ∀ i j, i ≤ j → shut i = true → shut j = true)
    (s : Int) (fuel n : Nat) :
    lateSleepCount shut (warmupLoop shut s fuel n) ≤ 1 := by
  induction fuel generalizing n with
  | zero => simp [warmupLoop, lateSleepCount]
  | succ f ih =>
    by_cases hg : (!shut (2 * n) && decide ((n : Int) < s)) = true
    · have htrace :
          warmupLoop shut s (f + 1) n = (2 * n + 1) :: warmupLoop shut s f (n + 1) := by
        simp [warmupLoop, hg]
      rw [htrace, lateSleepCount_cons]
      by_cases hl : shut (2 * n + 1) = true
      · rw [warmupLoop_trace_shut shut s f (n + 1) (shut_step hmono hl)]
        simp [hl, lateSleepCount]
      · simp only [hl, if_false]
        simpa using ih (n + 1)
    · simp [warmupLoop, hg, lateSleepCount]

/-- At most one sleep of the main polling loop happens after the monotone
shutdown flag has been set. -/
theorem mainLoop_lateSleeps (shut : Nat → Bool)
    (hmono : ∀ i j, i ≤ j → shut i = true → shut j = true) (fuel n : Nat) :
    lateSleepCount shut (mainLoop shut fuel n) ≤ 1 := by
  induction fuel generalizing n with
  | zero => simp [mainLoop, lateSleepCount]
  | succ f ih =>
    by_cases hs : shut (2 * n) = true
    · simp [mainLoop, hs, lateSleepCount]
    · have htrace : mainLoop shut (f + 1) n = (2 * n + 1) :: mainLoop shut f (n + 1) := by
        simp [mainLoop, hs]
      rw [htrace, lateSleepCount_cons]
      by_cases hl : shut (2 * n + 1) = true
      · rw [mainLoop_trace_shut shut f (n + 1) (shut_step hmono hl)]
        simp [hl, lateSleepCount]
      · simp only [hl, if_false]
        simpa using ih (n + 1)

/-- String append in terms of the underlying character lists. -/
theorem strAppend_data (s t : String) : s ++ t = String.mk (s.data ++ t.data) := by
  cases s; cases t; rfl

/-- On an event whose target is still a regular file and which passes the
size/type filter, the handler reduces to the duplicate-check dispatch. -/
theorem processEvent_accepted (cfg : Config) (mimes : List String)
    (tagsFn : String → List String) (useOS : Bool)
    (backend : OSQuery → Except String (List Hit)) (ev : FSEvent)
    (hdir : ev.dir = false) (hfile : ev.isFile = true)
    (hsz : cfg.minBytes ≤ ev.size ∧ ev.size ≤ cfg.maxBytes)
    (hty : ev.mime ∈ mimes ∨ strContains ev.fileType pcapNgIndicator = true) :
    processEvent cfg mimes tagsFn useOS backend ev =
      match dupCheck useOS backend cfg.nodeName (relativePathOf ev.pathname cfg.baseDir)
          ev.size with
      | Except.error e => Outcome.errored e
      | Except.ok true => Outcome.duplicate
      | Except.ok false =>
          Outcome.published
            (mkFileRecord cfg tagsFn ev (relativePathOf ev.pathname cfg.baseDir)) := by
  unfold processEvent
  rw [hdir, hfile]
  simp only [Bool.not_false, Bool.and_self, if_true]
  rw [if_pos ⟨hsz, hty⟩]

/-- On an event whose target is still a regular file but which fails the
size/type filter, the handler rejects. -/
theorem processEvent_rejected (cfg : Config) (mimes : List String)
    (tagsFn : String → List String) (useOS : Bool)
    (backend : OSQuery → Except String (List Hit)) (ev : FSEvent)
    (hdir : ev.dir = false) (hfile : ev.isFile = true)
    (hc : ¬((cfg.minBytes ≤ ev.size ∧ ev.size ≤ cfg.maxBytes) ∧
        (ev.mime ∈ mimes ∨ strContains ev.fileType pcapNgIndicator = true))) :
    processEvent cfg mimes tagsFn useOS backend ev = Outcome.rejected := by
  unfold processEvent
  rw [hdir, hfile]
  simp only [Bool.not_false, Bool.and_self, if_true]
  rw [if_neg hc]

/-- The hit scan succeeds exactly when some hit of the page carries a size
field equal to the candidate size. -/
theorem scanForDuplicate_iff (hits : List Hit) (sz : Int) :
    scanForDuplicate hits sz = true ↔
      ∃ hit ∈ hits, hit.lookup ARKIME_FILE_SIZE_FIELD = some sz := by
  simp only [scanForDuplicate, List.any_eq_true]
  constructor
  · rintro ⟨hit, hmem, hm⟩
    refine ⟨hit, hmem, ?_⟩
    cases hlk : hit.lookup ARKIME_FILE_SIZE_FIELD with
    | none => rw [hlk] at hm; exact absurd hm (by simp)
    | some v => rw [hlk] at hm; simp only [beq_iff_eq] at hm; rw [hm]
  · rintro ⟨hit, hmem, hlk⟩
    exact ⟨hit, hmem, by rw [hlk]; simp⟩

/-- The event proceeds past the size/type filter exactly when the size lies
in the inclusive bounds and the type is acceptable. -/
theorem proceedsPastFilter_iff (cfg : Config) (mimes : List String)
    (tagsFn : String → List String) (useOS : Bool)
    (backend : OSQuery → Except String (List Hit)) (ev : FSEvent)
    (hdir : ev.dir = false) (hfile : ev.isFile = true) :
    proceedsPastFilter (processEvent cfg mimes tagsFn useOS backend ev) = true ↔
      (cfg.minBytes ≤ ev.size ∧ ev.size ≤ cfg.maxBytes ∧
        (ev.mime ∈ mimes ∨ strContains ev.fileType pcapNgIndicator = true)) := by
  by_cases hc : (cfg.minBytes ≤ ev.size ∧ ev.size ≤ cfg.maxBytes) ∧
      (ev.mime ∈ mimes ∨ strContains ev.fileType pcapNgIndicator = true)
  · rw [processEvent_accepted cfg mimes tagsFn useOS backend ev hdir hfile hc.1 hc.2]
    cases hd : dupCheck useOS backend cfg.nodeName (relativePathOf ev.pathname cfg.baseDir)
        ev.size with
    | error e => simpa [proceedsPastFilter] using ⟨hc.1.1, hc.1.2, hc.2⟩
    | ok b =>
      cases b <;> simpa [proceedsPastFilter] using ⟨hc.1.1, hc.1.2, hc.2⟩
  · rw [processEvent_rejected cfg mimes tagsFn useOS backend ev hdir hfile hc]
    simp only [proceedsPastFilter, Bool.false_eq_true, false_iff]
    tauto

/-! Claim theorems. -/

/-- Claim C1: for every filesystem event whose target is a regular file,
the event is accepted (proceeds to the duplicate check and possible
publication) if and only if minBytes <= fileSize <= maxBytes (both bounds
inclusive: a file of exactly minBytes or exactly maxBytes is accepted, all
else equal, while minBytes - 1 and maxBytes + 1 are rejected) and (its MIME
type is in the accepted capture-format set or its type description contains
"pcap-ng"); every rejected event publishes nothing. -/
theorem size_and_type_filter (cfg : Config) (mimes : List String)
    (tagsFn : String → List String) (useOS : Bool)
    (backend : OSQuery → Except String (List Hit)) (ev : FSEvent)
    (hdir : ev.dir = false) (hfile : ev.isFile = true) :
    (proceedsPastFilter (processEvent cfg mimes tagsFn useOS backend ev) = true ↔
      (cfg.minBytes ≤ ev.size ∧ ev.size ≤ cfg.maxBytes ∧
        (ev.mime ∈ mimes ∨ strContains ev.fileType pcapNgIndicator = true))) ∧
    (processEvent cfg mimes tagsFn useOS backend ev = Outcome.rejected →
      publishedRecords (processEvent cfg mimes tagsFn useOS backend ev) = []) ∧
    ((cfg.minBytes ≤ cfg.maxBytes ∧
        (ev.mime ∈ mimes ∨ strContains ev.fileType pcapNgIndicator = true)) →
      proceedsPastFilter
          (processEvent cfg mimes tagsFn useOS backend { ev with size := cfg.minBytes })
        = true ∧
      proceedsPastFilter
          (processEvent cfg mimes tagsFn useOS backend { ev with size := cfg.maxBytes })
        = true) ∧
    proceedsPastFilter
        (processEvent cfg mimes tagsFn useOS backend { ev with size := cfg.minBytes - 1 })
      = false ∧
    proceedsPastFilter
        (processEvent cfg mimes tagsFn useOS backend { ev with size := cfg.maxBytes + 1 })
      = false := by
  refine ⟨proceedsPastFilter_iff cfg mimes tagsFn useOS backend ev hdir hfile, ?_, ?_, ?_, ?_⟩
  · intro hr; rw [hr]; rfl
  · intro hb
    constructor
    · exact (proceedsPastFilter_iff cfg mimes tagsFn useOS backend
        { ev with size := cfg.minBytes } hdir hfile).mpr ⟨le_refl _, hb.1, hb.2⟩
    · exact (proceedsPastFilter_iff cfg mimes tagsFn useOS backend
        { ev with size := cfg.maxBytes } hdir hfile).mpr ⟨hb.1, le_refl _, hb.2⟩
  · rw [← Bool.not_eq_true]
    intro ht
    have h1 : cfg.minBytes ≤ cfg.minBytes - 1 :=
      ((proceedsPastFilter_iff cfg mimes tagsFn useOS backend
        { ev with size := cfg.minBytes - 1 } hdir hfile).mp ht).1
    omega
  · rw [← Bool.not_eq_true]
    intro ht
    have h1 : cfg.maxBytes + 1 ≤ cfg.maxBytes :=
      ((proceedsPastFilter_iff cfg mimes tagsFn useOS backend
        { ev with size := cfg.maxBytes + 1 } hdir hfile).mp ht).2.1
    omega

/-- Witness for size_and_type_filter: a 500-byte tcpdump capture under the
default bounds is accepted, a file of exactly minBytes is accepted, and one
of minBytes - 1 is rejected. -/
theorem size_and_type_filter_witness :
    proceedsPastFilter (processEvent cfgW mimesW tagsW false backendNone evW) = true ∧
    proceedsPastFilter
        (processEvent cfgW mimesW tagsW false backendNone { evW with size := cfgW.minBytes })
      = true ∧
    proceedsPastFilter
        (processEvent cfgW mimesW tagsW false backendNone { evW with size := cfgW.minBytes - 1 })
      = false := by
  obtain ⟨h1, h2, h3, h4, h5⟩ :=
    size_and_type_filter cfgW mimesW tagsW false backendNone evW rfl rfl
  exact ⟨h1.mpr (by decide), (h3 (by decide)).1, h4⟩

/-- Claim C2: when the Duplicate Oracle is in use, a candidate is classified
a duplicate if and only if some hit of the first page of the response to
the node-scoped wildcard path-suffix query carries a size field equal to
the candidate's byte size; a hit with the same path but a different size
does not make the candidate a duplicate. -/
theorem duplicate_iff_size_match (cfg : Config) (mimes : List String)
    (tagsFn : String → List String) (backend : OSQuery → Except String (List Hit))
    (ev : FSEvent) (hits : List Hit)
    (hdir : ev.dir = false) (hfile : ev.isFile = true)
    (hsz : cfg.minBytes ≤ ev.size ∧ ev.size ≤ cfg.maxBytes)
    (hty : ev.mime ∈ mimes ∨ strContains ev.fileType pcapNgIndicator = true)
    (hq : backend (duplicateQuery cfg.nodeName (relativePathOf ev.pathname cfg.baseDir))
        = Except.ok hits) :
    processEvent cfg mimes tagsFn true backend ev = Outcome.duplicate ↔
      ∃ hit ∈ hits, hit.lookup ARKIME_FILE_SIZE_FIELD = some ev.size := by
  rw [processEvent_accepted cfg mimes tagsFn true backend ev hdir hfile hsz hty]
  have hd : dupCheck true backend cfg.nodeName (relativePathOf ev.pathname cfg.baseDir) ev.size
      = Except.ok (scanForDuplicate hits ev.size) := by
    simp [dupCheck, hq, Except.map]
  rw [hd, ← scanForDuplicate_iff hits ev.size]
  cases hb : scanForDuplicate hits ev.size <;> simp [hb]

/-- Witness for duplicate_iff_size_match: a page with a size-500 hit makes
the 500-byte candidate a duplicate, while a page holding only a size-999
hit for the same path does not. -/
theorem duplicate_iff_size_match_witness :
    processEvent cfgW mimesW tagsW true backendHit evW = Outcome.duplicate ∧
    processEvent cfgW mimesW tagsW true backendOther evW ≠ Outcome.duplicate := by
  constructor
  · exact (duplicate_iff_size_match cfgW mimesW tagsW backendHit evW
      [[(ARKIME_FILE_SIZE_FIELD, 500)], [(ARKIME_FILE_SIZE_FIELD, 999)]]
      rfl rfl (by decide) (by decide) rfl).mpr
      ⟨[(ARKIME_FILE_SIZE_FIELD, 500)], by decide, by decide⟩
  · rw [Ne, duplicate_iff_size_match cfgW mimesW tagsW backendOther evW
      [[(ARKIME_FILE_SIZE_FIELD, 999)]] rfl rfl (by decide) (by decide) rfl]
    decide

/-- Claim C3 (refuting evaluation): with an endpoint configured,
waitForHealth unset and the very first connection attempt succeeding, the
init sequence leaves connected = true yet healthy = false, so useOpenSearch
comes out false and duplicate checking is NOT enabled, although the claim
(and the help text of the endpoint option, which says the connection string
is "for querying Arkime files index to ignore duplicates") says a
successful startup connection suffices and the health wait is an optional
extra.  With waitForHealth set and both calls succeeding, useOpenSearch
does come out true, showing the health wait is the only enabling path. -/
theorem useOpenSearch_requires_health_wait :
    watcherInitOS false shutNever attAlwaysTrue attAlwaysTrue 4 = some (true, false) ∧
    useOpenSearchInit (some "http://opensearch:9200") false shutNever attAlwaysTrue
        attAlwaysTrue 4 = some false ∧
    useOpenSearchInit (some "http://opensearch:9200") true shutNever attAlwaysTrue
        attAlwaysTrue 4 = some true := by
  decide

/-- Claim C4 counterexample: with waitForHealth unset, every attempt
failing (attNever) and the shutdown flag never set (shutNever), the connect
loop nevertheless terminates after its first attempt, with connected =
false — refuting "the loop only exits on success or on the shutdown flag,
regardless of other configuration flags". -/
theorem connect_loop_exits_after_one_failure :
    connectLoop false shutNever attNever 5 0 = (some (false, 1), []) ∧
    attNever 0 = false ∧ shutNever 2 = false := by
  decide

/-- Claim C4 as amended: the connect loop retries without limit only when
waitForHealth is requested — in that mode, whenever the loop terminates it
does so either with a successful attempt or because the shutdown flag was
set at the guard; when waitForHealth is not requested, the loop exits right
after its first attempt, successful or not. -/
theorem connect_loop_exit_conditions :
    (∀ (shut att : Nat → Bool) (fuel n : Nat) (c : Bool) (m : Nat),
        (connectLoop true shut att fuel n).1 = some (c, m) →
        (c = true ∧ att (m - 1) = true) ∨ (c = false ∧ shut (2 * m) = true)) ∧
    (∀ (shut att : Nat → Bool) (fuel n : Nat),
        shut (2 * n) = false →
        (connectLoop false shut att (fuel + 1) n).1 = some (att n, n + 1)) := by
  constructor
  · intro shut att fuel
    induction fuel with
    | zero =>
      intro n c m h
      simp [connectLoop] at h
    | succ f ih =>
      intro n c m h
      by_cases hs : shut (2 * n) = true
      · simp only [connectLoop, hs, if_true] at h
        obtain ⟨hc, hm⟩ := Prod.mk.injEq .. ▸ Option.some.injEq .. ▸ h
        exact Or.inr ⟨hc.symm, hm ▸ hs⟩
      · by_cases ha : att n = true
        · simp only [connectLoop, hs, ha, if_true, if_false] at h
          obtain ⟨hc, hm⟩ := Prod.mk.injEq .. ▸ Option.some.injEq .. ▸ h
          refine Or.inl ⟨hc.symm, ?_⟩
          rw [← hm]
          simpa using ha
        · simp only [connectLoop, hs, ha, if_true, if_false] at h
          exact ih (n + 1) c m h
  · intro shut att fuel n h
    cases ha : att n <;> simp [connectLoop, h, ha]

/-- Witness for connect_loop_exit_conditions: without waitForHealth the
loop returns right after the first (failed) attempt, and with waitForHealth
a terminated run must satisfy one of the two exit conditions. -/
theorem connect_loop_exit_conditions_witness :
    (connectLoop false shutNever attNever 3 0).1 = some (attNever 0, 1) ∧
    ((true = true ∧ attAlwaysTrue (1 - 1) = true) ∨
      (true = false ∧ shutNever (2 * 1) = true)) := by
  constructor
  · exact connect_loop_exit_conditions.2 shutNever attNever 2 0 rfl
  · exact connect_loop_exit_conditions.1 shutNever attAlwaysTrue 5 0 true 1 (by decide)

/-- Claim C5 counterexample: a candidate that passes the size/type filter,
with the oracle in use and a backend whose query raises, ends in the error
escaping the handler and nothing being published — refuting "the error is
handled inside the event pipeline and the file is still published". -/
theorem dup_query_error_not_published :
    processEvent cfgW mimesW tagsW true backendErr evW = Outcome.errored "ConnectionTimeout" ∧
    publishedRecords (processEvent cfgW mimesW tagsW true backendErr evW) = [] := by
  decide

/-- Claim C5 as amended: for every event that reaches the duplicate check
after the oracle is ready, an unexpected backend error raised during that
live duplicate query is not retried (the single query is issued once), but
it is NOT treated as "not a duplicate": nothing in the handler catches it,
so the exception propagates out of the per-event handler and the file is
not published. -/
theorem dup_query_error_unwinds (cfg : Config) (mimes : List String)
    (tagsFn : String → List String) (backend : OSQuery → Except String (List Hit))
    (ev : FSEvent) (e : String)
    (hdir : ev.dir = false) (hfile : ev.isFile = true)
    (hsz : cfg.minBytes ≤ ev.size ∧ ev.size ≤ cfg.maxBytes)
    (hty : ev.mime ∈ mimes ∨ strContains ev.fileType pcapNgIndicator = true)
    (hq : backend (duplicateQuery cfg.nodeName (relativePathOf ev.pathname cfg.baseDir))
        = Except.error e) :
    processEvent cfg mimes tagsFn true backend ev = Outcome.errored e ∧
    publishedRecords (processEvent cfg mimes tagsFn true backend ev) = [] := by
  rw [processEvent_accepted cfg mimes tagsFn true backend ev hdir hfile hsz hty]
  have hd : dupCheck true backend cfg.nodeName (relativePathOf ev.pathname cfg.baseDir) ev.size
      = Except.error e := by
    simp [dupCheck, hq, Except.map]
  rw [hd]
  exact ⟨rfl, rfl⟩

/-- Witness for dup_query_error_unwinds at a concrete event and erroring
backend. -/
theorem dup_query_error_unwinds_witness :
    processEvent cfgW mimesW tagsW true backendErr evW = Outcome.errored "ConnectionTimeout" ∧
    publishedRecords (processEvent cfgW mimesW tagsW true backendErr evW) = [] :=
  dup_query_error_unwinds cfgW mimesW tagsW backendErr evW "ConnectionTimeout"
    rfl rfl (by decide) (by decide) rfl

/-- Claim C6: with no backend endpoint configured, init leaves
useOpenSearch false whatever the other parameters do, and with
useOpenSearch false every regular-file event that passes the size/type
filter is published — for an arbitrary backend, in particular one whose
index already records an identical prior publication (dedup fully
disabled). -/
theorem no_endpoint_dedup_disabled :
    (∀ (wfh : Bool) (shut att hAtt : Nat → Bool) (fuel : Nat),
        useOpenSearchInit none wfh shut att hAtt fuel = some false) ∧
    (∀ (cfg : Config) (mimes : List String) (tagsFn : String → List String)
        (backend : OSQuery → Except String (List Hit)) (ev : FSEvent),
        ev.dir = false → ev.isFile = true →
        cfg.minBytes ≤ ev.size ∧ ev.size ≤ cfg.maxBytes →
        (ev.mime ∈ mimes ∨ strContains ev.fileType pcapNgIndicator = true) →
        processEvent cfg mimes tagsFn false backend ev =
          Outcome.published
            (mkFileRecord cfg tagsFn ev (relativePathOf ev.pathname cfg.baseDir))) := by
  constructor
  · intro wfh shut att hAtt fuel
    rfl
  · intro cfg mimes tagsFn backend ev hdir hfile hsz hty
    rw [processEvent_accepted cfg mimes tagsFn false backend ev hdir hfile hsz hty]
    rfl

/-- Witness for no_endpoint_dedup_disabled: no endpoint makes useOpenSearch
false, and the sample event is published even against a backend that
reports a same-path, same-size hit. -/
theorem no_endpoint_dedup_disabled_witness :
    useOpenSearchInit none false shutNever attAlwaysTrue attAlwaysTrue 3 = some false ∧
    processEvent cfgW mimesW tagsW false backendHit evW =
      Outcome.published (mkFileRecord cfgW tagsW evW (relativePathOf evW.pathname cfgW.baseDir)) :=
  ⟨no_endpoint_dedup_disabled.1 false shutNever attAlwaysTrue attAlwaysTrue 3,
    no_endpoint_dedup_disabled.2 cfgW mimesW tagsW backendHit evW rfl rfl
      (by decide) (by decide)⟩

/-- Claim C7: for every event that passes filtering and the duplicate
check, exactly one record is published, holding exactly the fields name
(the absolute event path when the absolute-path flag is set, otherwise the
relative path), size, MIME type, type description, the configured node
identifier, and the tag list derived from the relative path; rejected or
duplicate events publish nothing. -/
theorem publish_exactly_one_record (cfg : Config) (mimes : List String)
    (tagsFn : String → List String) (useOS : Bool)
    (backend : OSQuery → Except String (List Hit)) (ev : FSEvent)
    (hdir : ev.dir = false) (hfile : ev.isFile = true) :
    ((cfg.minBytes ≤ ev.size ∧ ev.size ≤ cfg.maxBytes) →
      (ev.mime ∈ mimes ∨ strContains ev.fileType pcapNgIndicator = true) →
      (dupCheck useOS backend cfg.nodeName (relativePathOf ev.pathname cfg.baseDir) ev.size
          = Except.ok false →
        publishedRecords (processEvent cfg mimes tagsFn useOS backend ev) =
          [{ name := if cfg.includeAbsolutePath then ev.pathname
                else relativePathOf ev.pathname cfg.baseDir
             size := ev.size
             mime := ev.mime
             fileType := ev.fileType
             node := cfg.nodeName
             tags := tagsFn (relativePathOf ev.pathname cfg.baseDir) }]) ∧
      (dupCheck useOS backend cfg.nodeName (relativePathOf ev.pathname cfg.baseDir) ev.size
          = Except.ok true →
        processEvent cfg mimes tagsFn useOS backend ev = Outcome.duplicate ∧
        publishedRecords (processEvent cfg mimes tagsFn useOS backend ev) = [])) ∧
    (¬((cfg.minBytes ≤ ev.size ∧ ev.size ≤ cfg.maxBytes) ∧
        (ev.mime ∈ mimes ∨ strContains ev.fileType pcapNgIndicator = true)) →
      processEvent cfg mimes tagsFn useOS backend ev = Outcome.rejected ∧
      publishedRecords (processEvent cfg mimes tagsFn useOS backend ev) = []) := by
  constructor
  · intro hsz hty
    rw [processEvent_accepted cfg mimes tagsFn useOS backend ev hdir hfile hsz hty]
    constructor
    · intro hd
      rw [hd]
      rfl
    · intro hd
      rw [hd]
      exact ⟨rfl, rfl⟩
  · intro hc
    rw [processEvent_rejected cfg mimes tagsFn useOS backend ev hdir hfile hc]
    exact ⟨rfl, rfl⟩

/-- Witness for publish_exactly_one_record: the sample 500-byte event with
an empty first result page publishes exactly one record with the six
fields. -/
theorem publish_exactly_one_record_witness :
    publishedRecords (processEvent cfgW mimesW tagsW true backendNone evW) =
      [{ name := if cfgW.includeAbsolutePath then evW.pathname
            else relativePathOf evW.pathname cfgW.baseDir
         size := evW.size
         mime := evW.mime
         fileType := evW.fileType
         node := cfgW.nodeName
         tags := tagsW (relativePathOf evW.pathname cfgW.baseDir) }] :=
  ((publish_exactly_one_record cfgW mimesW tagsW true backendNone evW rfl rfl).1
    (by decide) (by decide)).1 rfl

/-- Claim C8: every blocking retry loop of the program (the connect-retry
loop, the health-check retry loop, the warm-up sleep loop and the main
polling loop) checks the shutdown flag in its continuation condition on
every iteration, so once the (monotone, never-cleared) flag is set, no loop
performs more than one further sleep: along any finite execution prefix, at
most one recorded sleep happens at a tick at which the flag is already
set. -/
theorem shutdown_bounds_retry_sleeps (shut : Nat → Bool)
    (hmono : ∀ i j, i ≤ j → shut i = true → shut j = true) :
    (∀ (wfh : Bool) (att : Nat → Bool) (fuel n : Nat),
        lateSleepCount shut (connectLoop wfh shut att fuel n).2 ≤ 1) ∧
    (∀ (connected wfh : Bool) (hAtt : Nat → Bool) (fuel n : Nat),
        lateSleepCount shut (healthLoop connected wfh shut hAtt fuel n).2 ≤ 1) ∧
    (∀ (s : Int) (fuel n : Nat), lateSleepCount shut (warmupLoop shut s fuel n) ≤ 1) ∧
    (∀ (fuel n : Nat), lateSleepCount shut (mainLoop shut fuel n) ≤ 1) :=
  ⟨fun wfh att fuel n => connectLoop_lateSleeps shut hmono wfh att fuel n,
    fun connected wfh hAtt fuel n => healthLoop_lateSleeps shut hmono connected wfh hAtt fuel n,
    fun s fuel n => warmupLoop_lateSleeps shut hmono s fuel n,
    fun fuel n => mainLoop_lateSleeps shut hmono fuel n⟩

/-- Witness for shutdown_bounds_retry_sleeps with the flag set from tick 3
on. -/
theorem shutdown_bounds_retry_sleeps_witness :
    lateSleepCount (shutAt 3) (connectLoop true (shutAt 3) attNever 9 0).2 ≤ 1 ∧
    lateSleepCount (shutAt 3) (healthLoop true true (shutAt 3) attNever 9 0).2 ≤ 1 ∧
    lateSleepCount (shutAt 3) (warmupLoop (shutAt 3) 10 9 0) ≤ 1 ∧
    lateSleepCount (shutAt 3) (mainLoop (shutAt 3) 9 0) ≤ 1 := by
  have hmono : ∀ i j, i ≤ j → shutAt 3 i = true → shutAt 3 j = true := by
    intro i j hij hi
    simp only [shutAt, decide_eq_true_eq] at hi ⊢
    omega
  obtain ⟨h1, h2, h3, h4⟩ := shutdown_bounds_retry_sleeps (shutAt 3) hmono
  exact ⟨h1 true attNever 9 0, h2 true true attNever 9 0, h3 10 9 0, h4 9 0⟩

/-- Claim C9: unless the ignore-pre-existing-files flag is set (and
shutdown has not been requested), the startup sequence touches — forcing a
synthetic "modified" notification for — every pre-existing regular file in
every resolved watch target.  The code additionally guards on the base
directory having existed at startup (preexistingDir); that guard only cuts
vacuous cases, because a base directory the script itself just created is
empty and every resolved watch target lies beneath it, so no file in any
target pre-existed the process — stated here as the hypothesis that
preexistingDir = false forces all the per-target file lists empty. -/
theorem preexisting_files_touched (preexistingDir ignoreExisting shuttingDown : Bool)
    (watchDirFiles : List (List String))
    (hig : ignoreExisting = false) (hsh : shuttingDown = false)
    (hpre : preexistingDir = false → ∀ d ∈ watchDirFiles, d = []) :
    ∀ f, f ∈ touchExistingFiles preexistingDir ignoreExisting shuttingDown watchDirFiles ↔
      ∃ d ∈ watchDirFiles, f ∈ d := by
  intro f
  subst hig
  subst hsh
  cases preexistingDir with
  | true => simp [touchExistingFiles, List.mem_flatten]
  | false =>
    simp only [touchExistingFiles, Bool.false_and, Bool.false_eq_true, if_false,
      List.not_mem_nil, false_iff, not_exists]
    intro d hd
    rw [hpre rfl d hd.1] at hd
    simp at hd

/-- Witness for preexisting_files_touched: with the base directory
pre-existing and neither flag set, the files of both watch targets are
exactly the touched ones. -/
theorem preexisting_files_touched_witness :
    ("a.pcap" ∈ touchExistingFiles true false false [["a.pcap"], ["b.pcap"]]) ↔
      ∃ d ∈ [["a.pcap"], ["b.pcap"]], "a.pcap" ∈ d :=
  preexisting_files_touched true false false [["a.pcap"], ["b.pcap"]] rfl rfl
    (fun h => nomatch h) "a.pcap"

/-- Claim C10: the relative path used for the duplicate query, the tags and
the published name is computed by stripping the configured base-directory
string plus trailing separator as a literal textual prefix of the event
path: when that string prefixes the event path, stripping it back off
reconstitutes the path; when it does not (for example the base directory
was given relative while watches deliver absolute paths), nothing is
stripped and the "relative" path equals the full event path. -/
theorem relative_path_literal_stripping (pathname baseDir : String) :
    (strPrefixOf (joinTrailingSep baseDir) pathname = true →
      joinTrailingSep baseDir ++ relativePathOf pathname baseDir = pathname) ∧
    (strPrefixOf (joinTrailingSep baseDir) pathname = false →
      relativePathOf pathname baseDir = pathname) := by
  constructor
  · intro hp
    obtain ⟨t, ht⟩ :=
      (listIsPrefix_iff (joinTrailingSep baseDir).data pathname.data).mp hp
    have h1 : relativePathOf pathname baseDir = String.mk t := by
      unfold relativePathOf remove_prefix
      rw [if_pos hp]
      unfold strDrop
      rw [show (joinTrailingSep baseDir).length = (joinTrailingSep baseDir).data.length
        from rfl]
      rw [← ht, List.drop_left]
    rw [h1, strAppend_data]
    rw [show (String.mk t).data = t from rfl, ht]
  · intro hp
    unfold relativePathOf remove_prefix
    rw [if_neg]
    simp [hp]

/-- Witness for relative_path_literal_stripping: an absolute base directory
that prefixes the event path strips cleanly, and a relative base directory
that does not prefix the absolute event path strips nothing. -/
theorem relative_path_literal_stripping_witness :
    (strPrefixOf (joinTrailingSep "/pcap") "/pcap/sub/a.pcap" = true ∧
      joinTrailingSep "/pcap" ++ relativePathOf "/pcap/sub/a.pcap" "/pcap"
        = "/pcap/sub/a.pcap") ∧
    (strPrefixOf (joinTrailingSep "pcap") "/data/pcap/a.pcap" = false ∧
      relativePathOf "/data/pcap/a.pcap" "pcap" = "/data/pcap/a.pcap") := by
  refine ⟨⟨by decide, ?_⟩, ⟨by decide, ?_⟩⟩
  · exact (relative_path_literal_stripping "/pcap/sub/a.pcap" "/pcap").1 (by decide)
  · exact (relative_path_literal_stripping "/data/pcap/a.pcap" "pcap").2 (by decide)

end PcapWatcher
